import Mathlib

/-
  Verification of src/batch.rs (webrast): the display-item batcher that turns
  display items into flat geometry buffers (vertices, colors, buffer/gamma
  shading parameters, texture coordinates, triangle indices).

  Shallow embedding conventions:
  - f32 arithmetic is modelled over ℚ (the claims under verification concern
    the exact arithmetic formulas, not rounding behavior);
  - Vec<T> becomes List T, mutation becomes explicit state passing;
  - u32 element indices become ℕ (all reachable index values are tiny);
  - a panic inside an operation (atlas resolution failure in add_text) is
    modelled as Option.none: the whole call fails and produces no state.
-/

namespace Webrast

/-- Modelled from the spec: the fixed-point layout unit Au (defined in
display_list.rs, which is not part of src/). One fixed-unit-per-pixel scale
factor (60 app units per pixel, the Servo convention); integer pixel
rectangles convert losslessly. -/
structure Au where
  value : Int
deriving DecidableEq, Repr

/-- Modelled from the spec: pixels to fixed units, `Au::from_px`. -/
def Au.from_px (px : Int) : Au := ⟨px * 60⟩

/-- Modelled from the spec: fixed units to pixels, `Au::to_px` (Rust integer
division truncates toward zero). -/
def Au.to_px (a : Au) : Int := a.value.tdiv 60

/-- euclid Point2D. -/
structure Point2D (α : Type) where
  x : α
  y : α
deriving DecidableEq, Repr

/-- euclid Point3D. -/
structure Point3D (α : Type) where
  x : α
  y : α
  z : α
deriving DecidableEq, Repr

/-- euclid Size2D. -/
structure Size2D (α : Type) where
  width : α
  height : α
deriving DecidableEq, Repr

/-- euclid Rect: origin plus size. -/
structure Rect (α : Type) where
  origin : Point2D α
  size : Size2D α
deriving DecidableEq, Repr

/-- euclid Rect::max_x: origin.x + size.width. -/
def Rect.max_x [Add α] (r : Rect α) : α := r.origin.x + r.size.width

/-- euclid Rect::max_y: origin.y + size.height. -/
def Rect.max_y [Add α] (r : Rect α) : α := r.origin.y + r.size.height

/-- euclid Rect::top_right. -/
def Rect.top_right [Add α] (r : Rect α) : Point2D α := ⟨r.max_x, r.origin.y⟩

/-- euclid Rect::bottom_left. -/
def Rect.bottom_left [Add α] (r : Rect α) : Point2D α := ⟨r.origin.x, r.max_y⟩

/-- euclid Rect::bottom_right. -/
def Rect.bottom_right [Add α] (r : Rect α) : Point2D α := ⟨r.max_x, r.max_y⟩

/-- Modelled from the spec: RGBA color (display_list.rs, not in src/). -/
structure Color where
  r : ℚ
  g : ℚ
  b : ℚ
  a : ℚ
deriving DecidableEq, Repr

/-- Modelled from the spec: opaque white (display_list.rs, not in src/). -/
def WHITE : Color := ⟨1, 1, 1, 1⟩

/-- Modelled from the spec: black (display_list.rs, not in src/). -/
def BLACK : Color := ⟨0, 0, 0, 1⟩

/-- Modelled from the spec: the fixed translucent marker color used for clip
quads (display_list.rs, not in src/); translucent green. -/
def TRANSPARENT_GREEN : Color := ⟨0, 1, 0, 1/2⟩

namespace atlas

/-- Modelled from the spec: the atlas's fixed pixel width (atlas.rs, not in
src/). -/
def WIDTH : ℕ := 1024

/-- Modelled from the spec: the atlas's fixed pixel height (atlas.rs, not in
src/). -/
def HEIGHT : ℕ := 1024

end atlas

/-- Modelled from the spec: the render context (context.rs, not in src/): the
render-target pixel size. The asset-manager handle is carried on the display
item in this embedding (see TextDisplayItem). -/
structure Context where
  render_target_size : Size2D Int
deriving DecidableEq, Repr

/-- ToAu for Size2D of i32 (src/batch.rs). -/
def Size2D.to_au (s : Size2D Int) : Size2D Au := ⟨Au.from_px s.width, Au.from_px s.height⟩

/-- ToNormalizedDevicePosition for Point2D of Au (src/batch.rs):
x maps to (px(x)/width - 0.5) * 2 and likewise for y. -/
def Point2D.to_normalized_device_position (p : Point2D Au) (context : Context) : Point2D ℚ :=
  ⟨((p.x.to_px : ℚ) / (context.render_target_size.width : ℚ) - 1/2) * 2,
   ((p.y.to_px : ℚ) / (context.render_target_size.height : ℚ) - 1/2) * 2⟩

/-- ToNormalizedDevicePosition for Size2D of Au (src/batch.rs): scale only,
no translation. -/
def Size2D.to_normalized_device_position (s : Size2D Au) (context : Context) : Size2D ℚ :=
  ⟨(s.width.to_px : ℚ) / (context.render_target_size.width : ℚ) * 2,
   (s.height.to_px : ℚ) / (context.render_target_size.height : ℚ) * 2⟩

/-- ToNormalizedDevicePosition for Rect of Au (src/batch.rs). -/
def Rect.to_normalized_device_position (r : Rect Au) (context : Context) : Rect ℚ :=
  ⟨r.origin.to_normalized_device_position context,
   r.size.to_normalized_device_position context⟩

/-- NEAR_DEPTH_VALUE in src/batch.rs. -/
def NEAR_DEPTH_VALUE : ℚ := -(1/2)

/-- FAR_DEPTH_VALUE in src/batch.rs. -/
def FAR_DEPTH_VALUE : ℚ := 1/2

/-- The Batch structure of src/batch.rs: five parallel growing buffers. -/
structure Batch where
  vertices : List (Point3D ℚ)
  colors : List Color
  buffer_gamma : List (Point2D ℚ)
  texture_coords : List (Point2D ℚ)
  elements : List ℕ
deriving DecidableEq, Repr

/-- Batch::new. -/
def Batch.new : Batch := ⟨[], [], [], [], []⟩

/-- Batch::add_vertices_for_rect: convert the rect to normalized device
position and append its four corners (x, -y, z_value) in the order top-left,
top-right, bottom-left, bottom-right. -/
def Batch.add_vertices_for_rect (b : Batch) (context : Context) (rect : Rect Au)
    (z_value : ℚ) : Batch :=
  let rect := rect.to_normalized_device_position context
  { b with vertices := b.vertices ++
      [⟨rect.origin.x, -rect.origin.y, z_value⟩,
       ⟨rect.max_x, -rect.origin.y, z_value⟩,
       ⟨rect.origin.x, -rect.max_y, z_value⟩,
       ⟨rect.max_x, -rect.max_y, z_value⟩] }

/-- Batch::add_solid_colors: replicate one color count times. -/
def Batch.add_solid_colors (b : Batch) (count : ℕ) (color : Color) : Batch :=
  { b with colors := b.colors ++ List.replicate count color }

/-- Batch::add_buffer_gamma: replicate one (buffer, gamma) pair count times. -/
def Batch.add_buffer_gamma (b : Batch) (count : ℕ) (buffer gamma : ℚ) : Batch :=
  { b with buffer_gamma := b.buffer_gamma ++ List.replicate count ⟨buffer, gamma⟩ }

/-- Batch::add_dummy_buffer_gamma: replicate (0, 0). -/
def Batch.add_dummy_buffer_gamma (b : Batch) (count : ℕ) : Batch :=
  b.add_buffer_gamma count 0 0

/-- Batch::add_texture_coords_for_rect: normalize the atlas-pixel rectangle by
the atlas's fixed dimensions and append its four UV corners. -/
def Batch.add_texture_coords_for_rect (b : Batch) (texture_rect : Rect ℕ) : Batch :=
  let atlas_width : ℚ := (atlas.WIDTH : ℚ)
  let atlas_height : ℚ := (atlas.HEIGHT : ℚ)
  let texture_rect : Rect ℚ :=
    ⟨⟨(texture_rect.origin.x : ℚ) / atlas_width, (texture_rect.origin.y : ℚ) / atlas_height⟩,
     ⟨(texture_rect.size.width : ℚ) / atlas_width, (texture_rect.size.height : ℚ) / atlas_height⟩⟩
  { b with texture_coords := b.texture_coords ++
      [texture_rect.origin,
       texture_rect.top_right,
       texture_rect.bottom_left,
       texture_rect.bottom_right] }

/-- Batch::add_dummy_texture_coords: replicate (0, 0). -/
def Batch.add_dummy_texture_coords (b : Batch) (count : ℕ) : Batch :=
  { b with texture_coords := b.texture_coords ++ List.replicate count ⟨0, 0⟩ }

/-- Batch::add_elements_for_clockwise_wound_rect: six indices into the four
most recently appended vertices, triangles (TL,TR,BL) and (BL,TR,BR). -/
def Batch.add_elements_for_clockwise_wound_rect (b : Batch) : Batch :=
  let bottom_right := b.vertices.length - 1
  let bottom_left := bottom_right - 1
  let top_right := bottom_left - 1
  let top_left := top_right - 1
  { b with elements := b.elements ++
      [top_left, top_right, bottom_left, bottom_left, top_right, bottom_right] }

/-- Batch::add_elements_for_counterclockwise_wound_rect: six indices into the
four most recently appended vertices, triangles (TL,BL,TR) and (TR,BL,BR). -/
def Batch.add_elements_for_counterclockwise_wound_rect (b : Batch) : Batch :=
  let bottom_right := b.vertices.length - 1
  let bottom_left := bottom_right - 1
  let top_right := bottom_left - 1
  let top_left := top_right - 1
  { b with elements := b.elements ++
      [top_left, bottom_left, top_right, top_right, bottom_left, bottom_right] }

/-- The full-render-target rectangle built inside Batch::clear_clip. -/
def full_render_target_rect (context : Context) : Rect Au :=
  ⟨⟨Au.from_px 0, Au.from_px 0⟩, context.render_target_size.to_au⟩

/-- Batch::clear_clip: full render-target quad, far depth, white, dummy
params/coords, clockwise winding. -/
def Batch.clear_clip (b : Batch) (context : Context) : Batch :=
  ((((b.add_vertices_for_rect context (full_render_target_rect context)
        FAR_DEPTH_VALUE).add_solid_colors 4 WHITE).add_dummy_buffer_gamma
        4).add_dummy_texture_coords 4).add_elements_for_clockwise_wound_rect

/-- Modelled from the spec: the clipping region (display_list.rs, not in
src/): one axis-aligned rectangle, main. -/
structure ClippingRegion where
  main : Rect Au
deriving DecidableEq, Repr

/-- Batch::add_clip: the clip-region quad, near depth, translucent marker
color, dummy params/coords, clockwise winding. -/
def Batch.add_clip (b : Batch) (context : Context) (clipping_region : ClippingRegion) : Batch :=
  ((((b.add_vertices_for_rect context clipping_region.main
        NEAR_DEPTH_VALUE).add_solid_colors 4 TRANSPARENT_GREEN).add_dummy_buffer_gamma
        4).add_dummy_texture_coords 4).add_elements_for_clockwise_wound_rect

/-- Batch::add_solid_color_rect: the bounds quad, near depth, fill color,
dummy params/coords, counterclockwise winding. -/
def Batch.add_solid_color_rect (b : Batch) (context : Context) (rect : Rect Au)
    (color : Color) : Batch :=
  ((((b.add_vertices_for_rect context rect
        NEAR_DEPTH_VALUE).add_solid_colors 4 color).add_dummy_buffer_gamma
        4).add_dummy_texture_coords 4).add_elements_for_counterclockwise_wound_rect

/-- Batch::add_text: resolve the asset's atlas rectangle (require_asset plus
get_atlas_handle, whose failure is modelled as none), then append the bounds
quad at near depth, black, buffer/gamma (0.5, 0.01), texture coordinates from
the atlas rectangle, counterclockwise winding. -/
def Batch.add_text (b : Batch) (context : Context) (bounds : Rect Au)
    (asset_rect : Option (Rect ℕ)) : Option Batch := do
  let atlas_rect ← asset_rect
  some (((((b.add_vertices_for_rect context bounds
      NEAR_DEPTH_VALUE).add_solid_colors 4 BLACK).add_buffer_gamma 4 (1/2)
      (1/100)).add_texture_coords_for_rect atlas_rect).add_elements_for_counterclockwise_wound_rect)

/-- Modelled from the spec: the shared base of display items (display_list.rs,
not in src/): bounds rectangle and clip region. -/
structure BaseDisplayItem where
  bounds : Rect Au
  clip : ClippingRegion
deriving DecidableEq, Repr

/-- Modelled from the spec: the SolidColor display item (display_list.rs, not
in src/). -/
structure SolidColorDisplayItem where
  base : BaseDisplayItem
  color : Color
deriving DecidableEq, Repr

/-- Modelled from the spec: the Text display item (display_list.rs and
assets.rs, not in src/). asset_rect is the atlas pixel rectangle that
require_asset / get_atlas_handle resolve for the item's asset, or none when
atlas resolution fails. -/
structure TextDisplayItem where
  base : BaseDisplayItem
  asset_rect : Option (Rect ℕ)
deriving DecidableEq, Repr

/-- Modelled from the spec: the DisplayItem tagged variant (display_list.rs,
not in src/). -/
inductive DisplayItem where
  | SolidColor (item : SolidColorDisplayItem)
  | Text (item : TextDisplayItem)
deriving DecidableEq, Repr

/-- DisplayItem::base: the shared base fields. -/
def DisplayItem.base : DisplayItem → BaseDisplayItem
  | .SolidColor item => item.base
  | .Text item => item.base

/-- The Batcher of src/batch.rs: one pending batch. -/
structure Batcher where
  pending_batch : Batch
deriving DecidableEq, Repr

/-- Batcher::new. -/
def Batcher.new : Batcher := ⟨Batch.new⟩

/-- Batcher::add: clear-clip quad, clip quad, then dispatch on the item
variant for the content quad. A failing add (atlas resolution failure
panicking inside add_text) is modelled as none: no resulting state. -/
def Batcher.add (b : Batcher) (context : Context) (display_item : DisplayItem) :
    Option Batcher :=
  let batch := b.pending_batch.clear_clip context
  let batch := batch.add_clip context display_item.base.clip
  match display_item with
  | .SolidColor item =>
      some ⟨batch.add_solid_color_rect context item.base.bounds item.color⟩
  | .Text item => do
      let batch ← batch.add_text context item.base.bounds item.asset_rect
      some ⟨batch⟩

/-- Batcher::finish: consume the batcher and return the single pending batch. -/
def Batcher.finish (b : Batcher) : List Batch := [b.pending_batch]

/-- A whole batching pass: fold Batcher::add over a list of (context, item)
steps (each call may use a different context, as each add borrows it afresh). -/
def Batcher.run (b : Batcher) : List (Context × DisplayItem) → Option Batcher
  | [] => some b
  | (context, item) :: rest => do
      let b ← b.add context item
      b.run rest

/-- The four corner vertices that add_vertices_for_rect appends for a
device-space rectangle at a given depth: top-left, top-right, bottom-left,
bottom-right, each with y negated. -/
def quad_vertices (rect : Rect ℚ) (z : ℚ) : List (Point3D ℚ) :=
  [⟨rect.origin.x, -rect.origin.y, z⟩,
   ⟨rect.max_x, -rect.origin.y, z⟩,
   ⟨rect.origin.x, -rect.max_y, z⟩,
   ⟨rect.max_x, -rect.max_y, z⟩]

/-- The six indices of a clockwise-wound quad whose top-left vertex sits at
position n: triangles (TL,TR,BL) and (BL,TR,BR). -/
def clockwise_elements (n : ℕ) : List ℕ := [n, n + 1, n + 2, n + 2, n + 1, n + 3]

/-- The six indices of a counterclockwise-wound quad whose top-left vertex
sits at position n: triangles (TL,BL,TR) and (TR,BL,BR). -/
def counterclockwise_elements (n : ℕ) : List ℕ := [n, n + 2, n + 1, n + 1, n + 2, n + 3]

/-- An atlas pixel coordinate divided componentwise by the atlas's fixed
width and height. -/
def uv_of_atlas_pixel (p : Point2D ℕ) : Point2D ℚ :=
  ⟨(p.x : ℚ) / (atlas.WIDTH : ℚ), (p.y : ℚ) / (atlas.HEIGHT : ℚ)⟩

theorem Batcher.add_solid_color_eq (b : Batch) (context : Context)
    (base : BaseDisplayItem) (color : Color) :
    Batcher.add ⟨b⟩ context (.SolidColor ⟨base, color⟩) = some ⟨{
      vertices := b.vertices ++
        quad_vertices ((full_render_target_rect context).to_normalized_device_position
          context) FAR_DEPTH_VALUE ++
        quad_vertices (base.clip.main.to_normalized_device_position context)
          NEAR_DEPTH_VALUE ++
        quad_vertices (base.bounds.to_normalized_device_position context)
          NEAR_DEPTH_VALUE,
      colors := b.colors ++ List.replicate 4 WHITE ++
        List.replicate 4 TRANSPARENT_GREEN ++ List.replicate 4 color,
      buffer_gamma := b.buffer_gamma ++ List.replicate 4 ⟨0, 0⟩ ++
        List.replicate 4 ⟨0, 0⟩ ++ List.replicate 4 ⟨0, 0⟩,
      texture_coords := b.texture_coords ++ List.replicate 4 ⟨0, 0⟩ ++
        List.replicate 4 ⟨0, 0⟩ ++ List.replicate 4 ⟨0, 0⟩,
      elements := b.elements ++ clockwise_elements b.vertices.length ++
        clockwise_elements (b.vertices.length + 4) ++
        counterclockwise_elements (b.vertices.length + 8) }⟩ := by
  simp only [Batcher.add, Batch.clear_clip, Batch.add_clip, Batch.add_solid_color_rect,
    Batch.add_vertices_for_rect, Batch.add_solid_colors, Batch.add_dummy_buffer_gamma,
    Batch.add_buffer_gamma, Batch.add_dummy_texture_coords,
    Batch.add_elements_for_clockwise_wound_rect,
    Batch.add_elements_for_counterclockwise_wound_rect, DisplayItem.base,
    quad_vertices, clockwise_elements, counterclockwise_elements,
    Option.some.injEq, Batcher.mk.injEq, Batch.mk.injEq, true_and, and_true]
  simp only [List.length_append, List.length_cons, List.length_nil, List.append_assoc,
    List.append_cancel_left_eq, List.cons_append, List.nil_append, List.cons.injEq, and_true]
  omega

theorem Batcher.add_text_some_eq (b : Batch) (context : Context)
    (base : BaseDisplayItem) (r : Rect ℕ) :
    Batcher.add ⟨b⟩ context (.Text ⟨base, some r⟩) = some ⟨{
      vertices := b.vertices ++
        quad_vertices ((full_render_target_rect context).to_normalized_device_position
          context) FAR_DEPTH_VALUE ++
        quad_vertices (base.clip.main.to_normalized_device_position context)
          NEAR_DEPTH_VALUE ++
        quad_vertices (base.bounds.to_normalized_device_position context)
          NEAR_DEPTH_VALUE,
      colors := b.colors ++ List.replicate 4 WHITE ++
        List.replicate 4 TRANSPARENT_GREEN ++ List.replicate 4 BLACK,
      buffer_gamma := b.buffer_gamma ++ List.replicate 4 ⟨0, 0⟩ ++
        List.replicate 4 ⟨0, 0⟩ ++ List.replicate 4 ⟨1/2, 1/100⟩,
      texture_coords := b.texture_coords ++ List.replicate 4 ⟨0, 0⟩ ++
        List.replicate 4 ⟨0, 0⟩ ++
        [uv_of_atlas_pixel r.origin, uv_of_atlas_pixel r.top_right,
         uv_of_atlas_pixel r.bottom_left, uv_of_atlas_pixel r.bottom_right],
      elements := b.elements ++ clockwise_elements b.vertices.length ++
        clockwise_elements (b.vertices.length + 4) ++
        counterclockwise_elements (b.vertices.length + 8) }⟩ := by
  simp only [Batcher.add, Batch.clear_clip, Batch.add_clip, Batch.add_text,
    Batch.add_vertices_for_rect, Batch.add_solid_colors, Batch.add_dummy_buffer_gamma,
    Batch.add_buffer_gamma, Batch.add_dummy_texture_coords,
    Batch.add_texture_coords_for_rect,
    Batch.add_elements_for_clockwise_wound_rect,
    Batch.add_elements_for_counterclockwise_wound_rect, DisplayItem.base,
    quad_vertices, clockwise_elements, counterclockwise_elements, uv_of_atlas_pixel,
    Rect.top_right, Rect.bottom_left, Rect.bottom_right, Rect.max_x, Rect.max_y,
    Option.bind_eq_bind', Option.some_bind', Option.some.injEq, Batcher.mk.injEq,
    Batch.mk.injEq, true_and, and_true]
  simp only [List.length_append, List.length_cons, List.length_nil, List.append_assoc,
    List.append_cancel_left_eq, List.cons_append, List.nil_append, List.cons.injEq,
    Point2D.mk.injEq, and_true, true_and]
  and_intros <;> first
    | omega
    | (push_cast; ring)

theorem Batcher.add_text_none_eq (b : Batch) (context : Context)
    (base : BaseDisplayItem) :
    Batcher.add ⟨b⟩ context (.Text ⟨base, none⟩) = none := rfl

/-- The Batch well-formedness invariant: the four per-vertex arrays run in
parallel, the vertex count is a multiple of 4, every quad has its 6-index
group (2 indices per 3 vertices overall), and every stored index is in
bounds. -/
def BatchWF (b : Batch) : Prop :=
  b.colors.length = b.vertices.length ∧
  b.buffer_gamma.length = b.vertices.length ∧
  b.texture_coords.length = b.vertices.length ∧
  b.vertices.length % 4 = 0 ∧
  2 * b.elements.length = 3 * b.vertices.length ∧
  ∀ e ∈ b.elements, e < b.vertices.length

theorem batchWF_new : BatchWF Batch.new := by
  simp [BatchWF, Batch.new]

/-- The effect of one successful Batcher::add on the pending batch: exactly
12 vertices, 12 colors, 12 buffer/gamma pairs, 12 texture coordinates and 18
indices are appended, every pre-existing entry is preserved in place, and
each newly appended index points into the 12 newly appended vertices. -/
theorem Batcher.add_effect {b b' : Batcher} {context : Context} {item : DisplayItem}
    (h : b.add context item = some b') :
    b'.pending_batch.vertices.length = b.pending_batch.vertices.length + 12 ∧
    b'.pending_batch.colors.length = b.pending_batch.colors.length + 12 ∧
    b'.pending_batch.buffer_gamma.length = b.pending_batch.buffer_gamma.length + 12 ∧
    b'.pending_batch.texture_coords.length = b.pending_batch.texture_coords.length + 12 ∧
    b'.pending_batch.elements.length = b.pending_batch.elements.length + 18 ∧
    b'.pending_batch.vertices.take b.pending_batch.vertices.length =
      b.pending_batch.vertices ∧
    b'.pending_batch.colors.take b.pending_batch.colors.length =
      b.pending_batch.colors ∧
    b'.pending_batch.buffer_gamma.take b.pending_batch.buffer_gamma.length =
      b.pending_batch.buffer_gamma ∧
    b'.pending_batch.texture_coords.take b.pending_batch.texture_coords.length =
      b.pending_batch.texture_coords ∧
    b'.pending_batch.elements.take b.pending_batch.elements.length =
      b.pending_batch.elements ∧
    ∀ e ∈ b'.pending_batch.elements, e ∈ b.pending_batch.elements ∨
      (b.pending_batch.vertices.length ≤ e ∧
       e < b.pending_batch.vertices.length + 12) := by
  obtain ⟨batch⟩ := b
  cases item with
  | SolidColor item =>
    obtain ⟨base, color⟩ := item
    rw [Batcher.add_solid_color_eq] at h
    injection h with h
    subst h
    dsimp only
    and_intros <;> first
      | (simp only [quad_vertices, clockwise_elements, counterclockwise_elements,
           List.append_assoc, List.length_append, List.length_cons, List.length_nil,
           List.length_replicate] <;> omega)
      | (simp only [List.append_assoc, List.take_left]; done)
      | (intro e he
         simp only [clockwise_elements, counterclockwise_elements, List.append_assoc,
           List.mem_append, List.mem_cons, List.not_mem_nil, or_false] at he
         rcases he with he | he
         · exact Or.inl he
         · right
           omega)
  | Text item =>
    obtain ⟨base, ar⟩ := item
    cases ar with
    | none =>
      rw [Batcher.add_text_none_eq] at h
      simp at h
    | some r =>
      rw [Batcher.add_text_some_eq] at h
      injection h with h
      subst h
      dsimp only
      and_intros <;> first
        | (simp only [quad_vertices, clockwise_elements, counterclockwise_elements,
             List.append_assoc, List.length_append, List.length_cons, List.length_nil,
             List.length_replicate] <;> omega)
        | (simp only [List.append_assoc, List.take_left]; done)
        | (intro e he
           simp only [clockwise_elements, counterclockwise_elements, List.append_assoc,
             List.mem_append, List.mem_cons, List.not_mem_nil, or_false] at he
           rcases he with he | he
           · exact Or.inl he
           · right
             omega)

/-- One successful Batcher::add preserves BatchWF. -/
theorem Batcher.add_WF {b b' : Batcher} {context : Context} {item : DisplayItem}
    (h : b.add context item = some b') (hb : BatchWF b.pending_batch) :
    BatchWF b'.pending_batch := by
  obtain ⟨h1, h2, h3, h4, h5, _, _, _, _, _, hmem⟩ := Batcher.add_effect h
  obtain ⟨w1, w2, w3, w4, w5, w6⟩ := hb
  refine ⟨by omega, by omega, by omega, by omega, by omega, ?_⟩
  intro e he
  rcases hmem e he with h' | h'
  · have := w6 e h'
    omega
  · omega

/-- A whole batching pass preserves BatchWF. -/
theorem Batcher.run_WF : ∀ (steps : List (Context × DisplayItem)) (b b' : Batcher),
    b.run steps = some b' → BatchWF b.pending_batch → BatchWF b'.pending_batch := by
  intro steps
  induction steps with
  | nil =>
    intro b b' h hb
    simp only [Batcher.run, Option.some.injEq] at h
    subst h
    exact hb
  | cons step rest ih =>
    intro b b' h hb
    obtain ⟨context, item⟩ := step
    simp only [Batcher.run, Option.bind_eq_bind', Option.bind] at h
    cases hadd : b.add context item with
    | none => rw [hadd] at h; cases h
    | some b1 =>
      rw [hadd] at h
      exact ih b1 b' h (Batcher.add_WF hadd hb)

/-- Claim C3: for every context and every SolidColor display item, one
Batcher::add call appends exactly 3 quads (12 vertices, 18 indices) in this
order: first a clear-clip quad covering the full render target (opaque white,
far depth 0.5, clockwise winding, dummy shading params and texture coords),
then a clip quad on the item's clip rectangle (translucent marker color, near
depth -0.5, clockwise winding), then a content quad on the item's bounds (the
item's fill color, near depth -0.5, counterclockwise winding). -/
theorem claim_C3_solid_color_emission (b : Batch) (context : Context)
    (base : BaseDisplayItem) (color : Color) :
    Batcher.add ⟨b⟩ context (.SolidColor ⟨base, color⟩) = some ⟨{
      vertices := b.vertices ++
        quad_vertices ((full_render_target_rect context).to_normalized_device_position
          context) FAR_DEPTH_VALUE ++
        quad_vertices (base.clip.main.to_normalized_device_position context)
          NEAR_DEPTH_VALUE ++
        quad_vertices (base.bounds.to_normalized_device_position context)
          NEAR_DEPTH_VALUE,
      colors := b.colors ++ List.replicate 4 WHITE ++
        List.replicate 4 TRANSPARENT_GREEN ++ List.replicate 4 color,
      buffer_gamma := b.buffer_gamma ++ List.replicate 4 ⟨0, 0⟩ ++
        List.replicate 4 ⟨0, 0⟩ ++ List.replicate 4 ⟨0, 0⟩,
      texture_coords := b.texture_coords ++ List.replicate 4 ⟨0, 0⟩ ++
        List.replicate 4 ⟨0, 0⟩ ++ List.replicate 4 ⟨0, 0⟩,
      elements := b.elements ++ clockwise_elements b.vertices.length ++
        clockwise_elements (b.vertices.length + 4) ++
        counterclockwise_elements (b.vertices.length + 8) }⟩ ∧
    WHITE = ⟨1, 1, 1, 1⟩ ∧
    0 < TRANSPARENT_GREEN.a ∧ TRANSPARENT_GREEN.a < 1 ∧
    FAR_DEPTH_VALUE = 1/2 ∧ NEAR_DEPTH_VALUE = -(1/2) :=
  ⟨Batcher.add_solid_color_eq b context base color, rfl,
   by norm_num [TRANSPARENT_GREEN], by norm_num [TRANSPARENT_GREEN], rfl, rfl⟩

/-- Claim C4: for every context and every Text display item whose asset
resolves, one Batcher::add appends the same clear-clip and clip quads as for
SolidColor, then a content quad on the bounds at near depth, black, buffer
and gamma (0.5, 0.01) on all 4 vertices, counterclockwise winding, texture
coordinates equal to the resolved atlas pixel rectangle's four corners
divided by the atlas's fixed width and height; these are non-dummy whenever
the atlas rectangle is non-degenerate. -/
theorem claim_C4_text_emission (b : Batch) (context : Context)
    (base : BaseDisplayItem) (r : Rect ℕ) :
    Batcher.add ⟨b⟩ context (.Text ⟨base, some r⟩) = some ⟨{
      vertices := b.vertices ++
        quad_vertices ((full_render_target_rect context).to_normalized_device_position
          context) FAR_DEPTH_VALUE ++
        quad_vertices (base.clip.main.to_normalized_device_position context)
          NEAR_DEPTH_VALUE ++
        quad_vertices (base.bounds.to_normalized_device_position context)
          NEAR_DEPTH_VALUE,
      colors := b.colors ++ List.replicate 4 WHITE ++
        List.replicate 4 TRANSPARENT_GREEN ++ List.replicate 4 BLACK,
      buffer_gamma := b.buffer_gamma ++ List.replicate 4 ⟨0, 0⟩ ++
        List.replicate 4 ⟨0, 0⟩ ++ List.replicate 4 ⟨1/2, 1/100⟩,
      texture_coords := b.texture_coords ++ List.replicate 4 ⟨0, 0⟩ ++
        List.replicate 4 ⟨0, 0⟩ ++
        [uv_of_atlas_pixel r.origin, uv_of_atlas_pixel r.top_right,
         uv_of_atlas_pixel r.bottom_left, uv_of_atlas_pixel r.bottom_right],
      elements := b.elements ++ clockwise_elements b.vertices.length ++
        clockwise_elements (b.vertices.length + 4) ++
        counterclockwise_elements (b.vertices.length + 8) }⟩ ∧
    (0 < r.size.width ∧ 0 < r.size.height →
      uv_of_atlas_pixel r.bottom_right ≠ ⟨0, 0⟩) := by
  refine ⟨Batcher.add_text_some_eq b context base r, ?_⟩
  rintro ⟨hw, -⟩ huv
  have hx : ((r.bottom_right.x : ℚ) / (atlas.WIDTH : ℚ)) = 0 := congrArg Point2D.x huv
  rw [div_eq_zero_iff] at hx
  rcases hx with hx | hx
  · have : r.bottom_right.x = 0 := Nat.cast_eq_zero.mp hx
    simp only [Rect.bottom_right, Rect.max_x] at this
    omega
  · norm_num [atlas.WIDTH] at hx

/-- Claim C5: whenever the four most recently appended vertices form one quad
in the relative order top-left (position n), top-right (n+1), bottom-left
(n+2), bottom-right (n+3), the clockwise element builder appends exactly the
six indices (TL,TR,BL),(BL,TR,BR) and the counterclockwise element builder
appends exactly (TL,BL,TR),(TR,BL,BR), all referring to those last four
vertex positions. -/
theorem claim_C5_winding_element_indices (b : Batch) (n : ℕ)
    (h : b.vertices.length = n + 4) :
    b.add_elements_for_clockwise_wound_rect.elements =
      b.elements ++ [n, n + 1, n + 2, n + 2, n + 1, n + 3] ∧
    b.add_elements_for_counterclockwise_wound_rect.elements =
      b.elements ++ [n, n + 2, n + 1, n + 1, n + 2, n + 3] ∧
    (∀ e ∈ [n, n + 1, n + 2, n + 2, n + 1, n + 3], n ≤ e ∧ e < b.vertices.length) ∧
    (∀ e ∈ [n, n + 2, n + 1, n + 1, n + 2, n + 3], n ≤ e ∧ e < b.vertices.length) := by
  refine ⟨?_, ?_, ?_, ?_⟩
  · simp only [Batch.add_elements_for_clockwise_wound_rect, h,
      List.append_cancel_left_eq, List.cons.injEq, and_true]
    omega
  · simp only [Batch.add_elements_for_counterclockwise_wound_rect, h,
      List.append_cancel_left_eq, List.cons.injEq, and_true]
    omega
  · intro e he
    simp only [List.mem_cons, List.not_mem_nil, or_false] at he
    omega
  · intro e he
    simp only [List.mem_cons, List.not_mem_nil, or_false] at he
    omega

/-- Claim C6: for every render-target pixel size (w, h) with w > 0 and h > 0,
the rectangle with origin (0,0) and pixel size exactly (w, h), converted to
normalized device position (origin by the point transform, size by the
scale-only transform), has origin corner (-1, -1) and max corner (1, 1). -/
theorem claim_C6_full_target_rect_is_ndc_square (w h : Int) (hw : 0 < w) (hh : 0 < h) :
    ((full_render_target_rect ⟨⟨w, h⟩⟩).to_normalized_device_position ⟨⟨w, h⟩⟩).origin.x = -1 ∧
    ((full_render_target_rect ⟨⟨w, h⟩⟩).to_normalized_device_position ⟨⟨w, h⟩⟩).origin.y = -1 ∧
    ((full_render_target_rect ⟨⟨w, h⟩⟩).to_normalized_device_position ⟨⟨w, h⟩⟩).max_x = 1 ∧
    ((full_render_target_rect ⟨⟨w, h⟩⟩).to_normalized_device_position ⟨⟨w, h⟩⟩).max_y = 1 := by
  have hw0 : (w : ℚ) ≠ 0 := Int.cast_ne_zero.mpr hw.ne'
  have hh0 : (h : ℚ) ≠ 0 := Int.cast_ne_zero.mpr hh.ne'
  have etopx : ∀ k : Int, (Au.from_px k).to_px = k := by
    intro k
    simp only [Au.from_px, Au.to_px]
    exact Int.mul_tdiv_cancel k (by norm_num)
  simp only [full_render_target_rect, Rect.to_normalized_device_position,
    Point2D.to_normalized_device_position, Size2D.to_normalized_device_position,
    Size2D.to_au, Rect.max_x, Rect.max_y, etopx]
  rw [div_self hw0, div_self hh0]
  norm_num

/-- Claim C7: for every rectangle in fixed units and every depth value,
add_vertices_for_rect appends exactly 4 vertices, the rectangle's corners in
normalized device space with the y coordinate negated, in the fixed order
top-left, top-right, bottom-left, bottom-right, touching no other array. -/
theorem claim_C7_vertex_corner_emission (b : Batch) (context : Context)
    (rect : Rect Au) (z : ℚ) :
    (b.add_vertices_for_rect context rect z).vertices = b.vertices ++
      [⟨((rect.origin.x.to_px : ℚ) / (context.render_target_size.width : ℚ) - 1/2) * 2,
        -(((rect.origin.y.to_px : ℚ) / (context.render_target_size.height : ℚ) - 1/2) * 2), z⟩,
       ⟨((rect.origin.x.to_px : ℚ) / (context.render_target_size.width : ℚ) - 1/2) * 2 +
          (rect.size.width.to_px : ℚ) / (context.render_target_size.width : ℚ) * 2,
        -(((rect.origin.y.to_px : ℚ) / (context.render_target_size.height : ℚ) - 1/2) * 2), z⟩,
       ⟨((rect.origin.x.to_px : ℚ) / (context.render_target_size.width : ℚ) - 1/2) * 2,
        -(((rect.origin.y.to_px : ℚ) / (context.render_target_size.height : ℚ) - 1/2) * 2 +
          (rect.size.height.to_px : ℚ) / (context.render_target_size.height : ℚ) * 2), z⟩,
       ⟨((rect.origin.x.to_px : ℚ) / (context.render_target_size.width : ℚ) - 1/2) * 2 +
          (rect.size.width.to_px : ℚ) / (context.render_target_size.width : ℚ) * 2,
        -(((rect.origin.y.to_px : ℚ) / (context.render_target_size.height : ℚ) - 1/2) * 2 +
          (rect.size.height.to_px : ℚ) / (context.render_target_size.height : ℚ) * 2), z⟩] ∧
    (b.add_vertices_for_rect context rect z).colors = b.colors ∧
    (b.add_vertices_for_rect context rect z).buffer_gamma = b.buffer_gamma ∧
    (b.add_vertices_for_rect context rect z).texture_coords = b.texture_coords ∧
    (b.add_vertices_for_rect context rect z).elements = b.elements := by
  refine ⟨?_, rfl, rfl, rfl, rfl⟩
  simp only [Batch.add_vertices_for_rect, Rect.to_normalized_device_position,
    Point2D.to_normalized_device_position, Size2D.to_normalized_device_position,
    Rect.max_x, Rect.max_y]

/-- Claim C8: for every number of preceding add calls, Batcher::finish
returns a sequence of length exactly 1 whose single batch is the accumulated
pending batch; two SolidColor adds yield a single batch with 24 vertices, so
no per-item batch splitting occurs. -/
theorem claim_C8_finish_single_batch (b : Batcher) (context : Context)
    (item1 item2 : SolidColorDisplayItem) :
    b.finish = [b.pending_batch] ∧ b.finish.length = 1 ∧
    ∃ b1 b2 : Batcher,
      Batcher.new.add context (.SolidColor item1) = some b1 ∧
      b1.add context (.SolidColor item2) = some b2 ∧
      b2.finish.length = 1 ∧
      b2.pending_batch.vertices.length = 24 := by
  refine ⟨rfl, rfl, ?_⟩
  obtain ⟨base1, c1⟩ := item1
  obtain ⟨base2, c2⟩ := item2
  refine ⟨_, _, Batcher.add_solid_color_eq Batch.new context base1 c1,
    Batcher.add_solid_color_eq _ context base2 c2, rfl, ?_⟩
  simp only [quad_vertices, Batch.new, List.length_append, List.length_cons,
    List.length_nil, List.nil_append]

/-- Claim C9: geometry for one display item is appended atomically by
Batcher::add: the call fails exactly when the item is a Text item whose atlas
resolution fails, and a failed call (modelled as none, since the failure is a
panic) yields no batch state at all, so none of the item's geometry -
including its clear-clip and clip quads - is observable; a successful call
appends the item's complete geometry (12 vertices, 12 colors, 12 shading
pairs, 12 texture coordinates, 18 indices) while preserving all existing
entries in place. -/
theorem claim_C9_add_atomicity (b : Batcher) (context : Context) (item : DisplayItem) :
    (b.add context item = none ↔
      ∃ ti : TextDisplayItem, item = .Text ti ∧ ti.asset_rect = none) ∧
    ∀ b' : Batcher, b.add context item = some b' →
      b'.pending_batch.vertices.length = b.pending_batch.vertices.length + 12 ∧
      b'.pending_batch.colors.length = b.pending_batch.colors.length + 12 ∧
      b'.pending_batch.buffer_gamma.length = b.pending_batch.buffer_gamma.length + 12 ∧
      b'.pending_batch.texture_coords.length = b.pending_batch.texture_coords.length + 12 ∧
      b'.pending_batch.elements.length = b.pending_batch.elements.length + 18 ∧
      b'.pending_batch.vertices.take b.pending_batch.vertices.length =
        b.pending_batch.vertices ∧
      b'.pending_batch.colors.take b.pending_batch.colors.length =
        b.pending_batch.colors ∧
      b'.pending_batch.buffer_gamma.take b.pending_batch.buffer_gamma.length =
        b.pending_batch.buffer_gamma ∧
      b'.pending_batch.texture_coords.take b.pending_batch.texture_coords.length =
        b.pending_batch.texture_coords ∧
      b'.pending_batch.elements.take b.pending_batch.elements.length =
        b.pending_batch.elements := by
  constructor
  · constructor
    · intro hnone
      cases item with
      | SolidColor item =>
        obtain ⟨base, color⟩ := item
        obtain ⟨batch⟩ := b
        rw [Batcher.add_solid_color_eq] at hnone
        simp at hnone
      | Text item =>
        obtain ⟨base, ar⟩ := item
        cases ar with
        | none => exact ⟨⟨base, none⟩, rfl, rfl⟩
        | some r =>
          obtain ⟨batch⟩ := b
          rw [Batcher.add_text_some_eq] at hnone
          simp at hnone
    · rintro ⟨ti, rfl, har⟩
      obtain ⟨base, ar⟩ := ti
      dsimp only at har
      subst har
      obtain ⟨batch⟩ := b
      exact Batcher.add_text_none_eq batch context base
  · intro b' h
    obtain ⟨h1, h2, h3, h4, h5, h6, h7, h8, h9, h10, -⟩ := Batcher.add_effect h
    exact ⟨h1, h2, h3, h4, h5, h6, h7, h8, h9, h10⟩

/-- A concrete render context for witnesses: an 8 by 6 pixel render target. -/
def demo_context : Context := ⟨⟨8, 6⟩⟩

/-- A concrete rectangle in fixed units for witnesses. -/
def demo_au_rect : Rect Au := ⟨⟨Au.from_px 1, Au.from_px 1⟩, ⟨Au.from_px 2, Au.from_px 3⟩⟩

/-- Concrete shared display-item base fields for witnesses. -/
def demo_base : BaseDisplayItem := ⟨demo_au_rect, ⟨demo_au_rect⟩⟩

/-- A concrete atlas pixel rectangle for witnesses. -/
def demo_atlas_rect : Rect ℕ := ⟨⟨2, 3⟩, ⟨4, 5⟩⟩

/-- A concrete SolidColor display item for witnesses. -/
def demo_solid : DisplayItem := .SolidColor ⟨demo_base, ⟨1, 0, 0, 1⟩⟩

/-- A concrete Text display item (asset resolved) for witnesses. -/
def demo_text : DisplayItem := .Text ⟨demo_base, some demo_atlas_rect⟩

/-- Claim C1: for every sequence of Batcher::add calls on a fresh Batcher
(any mix of SolidColor and Text items, any contexts), the resulting batch
satisfies len(vertices) = len(colors) = len(buffer_gamma) =
len(texture_coords), and this common length is a multiple of 4. -/
theorem claim_C1_parallel_array_lengths (steps : List (Context × DisplayItem))
    (b' : Batcher) (h : Batcher.new.run steps = some b') :
    b'.pending_batch.colors.length = b'.pending_batch.vertices.length ∧
    b'.pending_batch.buffer_gamma.length = b'.pending_batch.vertices.length ∧
    b'.pending_batch.texture_coords.length = b'.pending_batch.vertices.length ∧
    4 ∣ b'.pending_batch.vertices.length := by
  obtain ⟨h1, h2, h3, h4, -, -⟩ := Batcher.run_WF steps Batcher.new b' h batchWF_new
  exact ⟨h1, h2, h3, Nat.dvd_of_mod_eq_zero h4⟩

/-- One SolidColor step for the C1 witness. -/
def demo_steps_solid : List (Context × DisplayItem) := [(demo_context, demo_solid)]

/-- The batcher after running the C1 witness step. -/
def demo_after_solid : Batcher := (Batcher.new.run demo_steps_solid).getD Batcher.new

/-- Witness for claim C1 at one concrete SolidColor add. -/
theorem claim_C1_witness :
    Batcher.new.run demo_steps_solid = some demo_after_solid ∧
    (demo_after_solid.pending_batch.colors.length =
       demo_after_solid.pending_batch.vertices.length ∧
     demo_after_solid.pending_batch.buffer_gamma.length =
       demo_after_solid.pending_batch.vertices.length ∧
     demo_after_solid.pending_batch.texture_coords.length =
       demo_after_solid.pending_batch.vertices.length ∧
     4 ∣ demo_after_solid.pending_batch.vertices.length) :=
  ⟨rfl, claim_C1_parallel_array_lengths demo_steps_solid demo_after_solid rfl⟩

/-- Claim C2: after any sequence of Batcher::add calls on a fresh Batcher,
every index stored in elements is strictly less than the current
len(vertices); and vertices only grow (a further add preserves the existing
vertices as a prefix; nothing is deleted or truncated). -/
theorem claim_C2_element_indices_in_bounds (steps : List (Context × DisplayItem))
    (b' : Batcher) (h : Batcher.new.run steps = some b') :
    (∀ e ∈ b'.pending_batch.elements, e < b'.pending_batch.vertices.length) ∧
    ∀ (context : Context) (item : DisplayItem) (b'' : Batcher),
      b'.add context item = some b'' →
      b''.pending_batch.vertices.take b'.pending_batch.vertices.length =
        b'.pending_batch.vertices := by
  refine ⟨(Batcher.run_WF steps Batcher.new b' h batchWF_new).2.2.2.2.2, ?_⟩
  intro context item b'' h2
  exact (Batcher.add_effect h2).2.2.2.2.2.1

/-- One Text step for the C2 witness. -/
def demo_steps_text : List (Context × DisplayItem) := [(demo_context, demo_text)]

/-- The batcher after running the C2 witness step. -/
def demo_after_text : Batcher := (Batcher.new.run demo_steps_text).getD Batcher.new

/-- The batcher after one further SolidColor add, for the C2 witness. -/
def demo_after_text_solid : Batcher :=
  (demo_after_text.add demo_context demo_solid).getD Batcher.new

/-- Witness for claim C2 at one concrete Text add followed by a SolidColor
add. -/
theorem claim_C2_witness :
    Batcher.new.run demo_steps_text = some demo_after_text ∧
    (∀ e ∈ demo_after_text.pending_batch.elements,
        e < demo_after_text.pending_batch.vertices.length) ∧
    demo_after_text.add demo_context demo_solid = some demo_after_text_solid ∧
    demo_after_text_solid.pending_batch.vertices.take
        demo_after_text.pending_batch.vertices.length =
      demo_after_text.pending_batch.vertices :=
  ⟨rfl, (claim_C2_element_indices_in_bounds demo_steps_text demo_after_text rfl).1,
   rfl, (claim_C2_element_indices_in_bounds demo_steps_text demo_after_text rfl).2
     demo_context demo_solid demo_after_text_solid rfl⟩

/-- Claim C10: after any sequence of Batcher::add calls on a fresh Batcher,
len(elements) = (len(vertices) / 4) * 6, i.e. every appended 4-vertex quad
carries exactly one 6-index group (2 * len(elements) = 3 * len(vertices)). -/
theorem claim_C10_six_indices_per_quad (steps : List (Context × DisplayItem))
    (b' : Batcher) (h : Batcher.new.run steps = some b') :
    2 * b'.pending_batch.elements.length = 3 * b'.pending_batch.vertices.length ∧
    b'.pending_batch.elements.length = b'.pending_batch.vertices.length / 4 * 6 := by
  obtain ⟨-, -, -, h4, h5, -⟩ := Batcher.run_WF steps Batcher.new b' h batchWF_new
  exact ⟨h5, by omega⟩

/-- Two steps (SolidColor then Text) for the C10 witness. -/
def demo_steps_two : List (Context × DisplayItem) :=
  [(demo_context, demo_solid), (demo_context, demo_text)]

/-- The batcher after running the two C10 witness steps. -/
def demo_after_two : Batcher := (Batcher.new.run demo_steps_two).getD Batcher.new

/-- Witness for claim C10 at two concrete adds. -/
theorem claim_C10_witness :
    Batcher.new.run demo_steps_two = some demo_after_two ∧
    (2 * demo_after_two.pending_batch.elements.length =
       3 * demo_after_two.pending_batch.vertices.length ∧
     demo_after_two.pending_batch.elements.length =
       demo_after_two.pending_batch.vertices.length / 4 * 6) :=
  ⟨rfl, claim_C10_six_indices_per_quad demo_steps_two demo_after_two rfl⟩

/-- Witness for claim C4 at a concrete non-degenerate atlas rectangle. -/
theorem claim_C4_witness :
    (0 < demo_atlas_rect.size.width ∧ 0 < demo_atlas_rect.size.height) ∧
    uv_of_atlas_pixel demo_atlas_rect.bottom_right ≠ ⟨0, 0⟩ :=
  ⟨by decide, (claim_C4_text_emission Batch.new demo_context demo_base
    demo_atlas_rect).2 (by decide)⟩

/-- A batch holding exactly one quad's worth of vertices, for the C5 witness. -/
def demo_quad_batch : Batch := ⟨List.replicate 4 ⟨0, 0, 0⟩, [], [], [], []⟩

/-- Witness for claim C5 on a concrete 4-vertex batch (n = 0). -/
theorem claim_C5_witness :
    demo_quad_batch.vertices.length = 0 + 4 ∧
    (demo_quad_batch.add_elements_for_clockwise_wound_rect.elements =
       demo_quad_batch.elements ++ [0, 0 + 1, 0 + 2, 0 + 2, 0 + 1, 0 + 3] ∧
     demo_quad_batch.add_elements_for_counterclockwise_wound_rect.elements =
       demo_quad_batch.elements ++ [0, 0 + 2, 0 + 1, 0 + 1, 0 + 2, 0 + 3] ∧
     (∀ e ∈ [0, 0 + 1, 0 + 2, 0 + 2, 0 + 1, 0 + 3],
        0 ≤ e ∧ e < demo_quad_batch.vertices.length) ∧
     (∀ e ∈ [0, 0 + 2, 0 + 1, 0 + 1, 0 + 2, 0 + 3],
        0 ≤ e ∧ e < demo_quad_batch.vertices.length)) :=
  ⟨rfl, claim_C5_winding_element_indices demo_quad_batch 0 rfl⟩

/-- Witness for claim C6 at the concrete 800 by 600 render target. -/
theorem claim_C6_witness :
    ((0 : Int) < 800 ∧ (0 : Int) < 600) ∧
    (((full_render_target_rect ⟨⟨800, 600⟩⟩).to_normalized_device_position
        ⟨⟨800, 600⟩⟩).origin.x = -1 ∧
     ((full_render_target_rect ⟨⟨800, 600⟩⟩).to_normalized_device_position
        ⟨⟨800, 600⟩⟩).origin.y = -1 ∧
     ((full_render_target_rect ⟨⟨800, 600⟩⟩).to_normalized_device_position
        ⟨⟨800, 600⟩⟩).max_x = 1 ∧
     ((full_render_target_rect ⟨⟨800, 600⟩⟩).to_normalized_device_position
        ⟨⟨800, 600⟩⟩).max_y = 1) :=
  ⟨⟨by decide, by decide⟩,
   claim_C6_full_target_rect_is_ndc_square 800 600 (by decide) (by decide)⟩

/-- The batcher after one successful Text add, for the C9 witness. -/
def demo_after_add9 : Batcher := (Batcher.new.add demo_context demo_text).getD Batcher.new

/-- Witness for claim C9 at one concrete successful Text add. -/
theorem claim_C9_witness :
    Batcher.new.add demo_context demo_text = some demo_after_add9 ∧
    (demo_after_add9.pending_batch.vertices.length =
       Batcher.new.pending_batch.vertices.length + 12 ∧
     demo_after_add9.pending_batch.colors.length =
       Batcher.new.pending_batch.colors.length + 12 ∧
     demo_after_add9.pending_batch.buffer_gamma.length =
       Batcher.new.pending_batch.buffer_gamma.length + 12 ∧
     demo_after_add9.pending_batch.texture_coords.length =
       Batcher.new.pending_batch.texture_coords.length + 12 ∧
     demo_after_add9.pending_batch.elements.length =
       Batcher.new.pending_batch.elements.length + 18 ∧
     demo_after_add9.pending_batch.vertices.take
         Batcher.new.pending_batch.vertices.length =
       Batcher.new.pending_batch.vertices ∧
     demo_after_add9.pending_batch.colors.take
         Batcher.new.pending_batch.colors.length =
       Batcher.new.pending_batch.colors ∧
     demo_after_add9.pending_batch.buffer_gamma.take
         Batcher.new.pending_batch.buffer_gamma.length =
       Batcher.new.pending_batch.buffer_gamma ∧
     demo_after_add9.pending_batch.texture_coords.take
         Batcher.new.pending_batch.texture_coords.length =
       Batcher.new.pending_batch.texture_coords ∧
     demo_after_add9.pending_batch.elements.take
         Batcher.new.pending_batch.elements.length =
       Batcher.new.pending_batch.elements) :=
  ⟨rfl, (claim_C9_add_atomicity Batcher.new demo_context demo_text).2
    demo_after_add9 rfl⟩

end Webrast
